import Mathlib

/-!
Verification of the article-tracking ledger (`storage/article_tracker.py`).

The remote `scraped_articles` table is modelled as a list of records plus an
auto-increment id counter (`Store`).  The `ArticleTracker` object carries the
optional client handle and the `TEST_MODE` flag.  Each public operation is a
pure function from tracker, store and injected remote-failure information to
an `OpResult`: the outcome (`Except` models a raised exception), the store
after the call, and the number of remote calls issued.  Remote failures are
injected through boolean flags (`queryFails`) or, for the per-URL upsert loop
of `mark_as_seen`, a predicate on the loop index.
-/

namespace Adu

/-- One row of the `scraped_articles` table.  `first_seen` is defaulted by the
database at insertion; `last_checked` is the timestamp sent with each upsert. -/
structure Record where
  id : Nat
  source_id : String
  url : String
  first_seen : String
  last_checked : String
deriving DecidableEq, Repr

/-- The remote table: rows plus the auto-assigned id counter (ids start at 1). -/
structure Store where
  records : List Record
  nextId : Nat
deriving DecidableEq, Repr

/-- The empty table, as a fresh database would present it. -/
def Store.empty : Store := ⟨[], 1⟩

/-- Whether the table holds a row for the (source_id, url) pair. -/
def Store.hasPair (s : Store) (source_id url : String) : Bool :=
  s.records.any (fun r => r.source_id == source_id && r.url == url)

/-- The database-side upsert with conflict target (source_id, url): update
`last_checked` of the existing row, or insert a fresh row whose `first_seen`
is defaulted to the insertion time. -/
def Store.upsert (s : Store) (source_id url now : String) : Store :=
  if s.records.any (fun r => r.source_id == source_id && r.url == url) then
    { s with records := s.records.map (fun r =>
        if r.source_id == source_id && r.url == url then
          { r with last_checked := now } else r) }
  else
    { records := s.records ++ [⟨s.nextId, source_id, url, now, now⟩],
      nextId := s.nextId + 1 }

/-- The tracker object: the optional Supabase client handle and `TEST_MODE`. -/
structure ArticleTracker where
  client : Option Unit
  testMode : Bool

/-- Message of the exception raised by every operation before `connect()`. -/
def notConnectedMsg : String := "Not connected to Supabase"

/-- Result of one public operation: the returned value or raised exception,
the store after the call, and how many remote calls were issued. -/
structure OpResult (α : Type) where
  outcome : Except String α
  store : Store
  calls : Nat

/-- `filter_new_articles(source_id, urls)`: raise if not connected, empty in /
empty out without querying, `TEST_MODE` returns the input, a failing query is
caught fail-open (return the input), otherwise drop the URLs already recorded
for the source. -/
def filter_new_articles (t : ArticleTracker) (s : Store) (queryFails : Bool)
    (source_id : String) (urls : List String) : OpResult (List String) :=
  if t.client.isNone then ⟨.error notConnectedMsg, s, 0⟩
  else if urls.isEmpty then ⟨.ok [], s, 0⟩
  else if t.testMode then ⟨.ok urls, s, 0⟩
  else if queryFails then ⟨.ok urls, s, 1⟩
  else
    let seen_urls := (s.records.filter
      (fun r => r.source_id == source_id && urls.contains r.url)).map
      (fun r => r.url)
    ⟨.ok (urls.filter (fun u => !(seen_urls.contains u))), s, 1⟩

/-- The per-URL upsert loop of `mark_as_seen`: a failing upsert is caught and
skipped, a successful one increments the marked counter.  `idx` is the loop
index the failure predicate is consulted at. -/
def markLoop (s : Store) (fail : Nat → Bool) (source_id : String)
    (urls : List String) (now : String) (idx : Nat) : Nat × Store :=
  match urls with
  | [] => (0, s)
  | u :: rest =>
    if fail idx then markLoop s fail source_id rest now (idx + 1)
    else
      let r := markLoop (s.upsert source_id u now) fail source_id rest now (idx + 1)
      (r.1 + 1, r.2)

/-- `mark_as_seen(source_id, urls)`: raise if not connected, return 0 on empty
input, otherwise upsert each URL (failures skipped) and return the number of
URLs actually recorded.  `TEST_MODE` is not consulted here. -/
def mark_as_seen (t : ArticleTracker) (s : Store) (fail : Nat → Bool)
    (source_id : String) (urls : List String) (now : String) : OpResult Nat :=
  if t.client.isNone then ⟨.error notConnectedMsg, s, 0⟩
  else if urls.isEmpty then ⟨.ok 0, s, 0⟩
  else
    let r := markLoop s fail source_id urls now 0
    ⟨.ok r.1, r.2, urls.length⟩

/-- `is_seen(source_id, url)`: raise if not connected, `false` in `TEST_MODE`,
`false` on a failing query, otherwise a point lookup. -/
def is_seen (t : ArticleTracker) (s : Store) (queryFails : Bool)
    (source_id url : String) : OpResult Bool :=
  if t.client.isNone then ⟨.error notConnectedMsg, s, 0⟩
  else if t.testMode then ⟨.ok false, s, 0⟩
  else if queryFails then ⟨.ok false, s, 1⟩
  else ⟨.ok (s.hasPair source_id url), s, 1⟩

/-- The statistics dictionary returned by `get_stats`. -/
structure Stats where
  total_articles : Nat
  oldest_seen : Option String
  newest_seen : Option String
deriving DecidableEq, Repr

/-- Smallest `first_seen` among the rows (order by `first_seen` asc, limit 1). -/
def oldestFirstSeen (rs : List Record) : Option String :=
  rs.foldl (fun acc r =>
    match acc with
    | none => some r.first_seen
    | some m => some (if r.first_seen < m then r.first_seen else m)) none

/-- Largest `first_seen` among the rows (order by `first_seen` desc, limit 1). -/
def newestFirstSeen (rs : List Record) : Option String :=
  rs.foldl (fun acc r =>
    match acc with
    | none => some r.first_seen
    | some m => some (if m < r.first_seen then r.first_seen else m)) none

/-- `get_stats(source_id)`: raise if not connected, zero/None defaults when
the queries fail, otherwise count and oldest/newest `first_seen`, optionally
scoped to one source. -/
def get_stats (t : ArticleTracker) (s : Store) (queryFails : Bool)
    (source_id : Option String) : OpResult Stats :=
  if t.client.isNone then ⟨.error notConnectedMsg, s, 0⟩
  else if queryFails then ⟨.ok ⟨0, none, none⟩, s, 1⟩
  else
    match source_id with
    | some sid =>
      let rs := s.records.filter (fun r => r.source_id == sid)
      ⟨.ok ⟨rs.length, oldestFirstSeen rs, newestFirstSeen rs⟩, s, 3⟩
    | none =>
      ⟨.ok ⟨s.records.length, oldestFirstSeen s.records,
        newestFirstSeen s.records⟩, s, 3⟩

/-- One step of building the per-source counts dictionary in row order. -/
def bumpCount (acc : List (String × Nat)) (sid : String) : List (String × Nat) :=
  match acc with
  | [] => [(sid, 1)]
  | (k, v) :: rest =>
    if k == sid then (k, v + 1) :: rest else (k, v) :: bumpCount rest sid

/-- Stable descending insertion by count (ties keep their existing order,
matching a stable sort with `reverse=True`). -/
def insertDesc (x : String × Nat) : List (String × Nat) → List (String × Nat)
  | [] => [x]
  | y :: ys => if y.2 < x.2 then x :: y :: ys else y :: insertDesc x ys

/-- Stable sort of the counts dictionary by count descending. -/
def sortByCountDesc (l : List (String × Nat)) : List (String × Nat) :=
  l.foldl (fun acc x => insertDesc x acc) []

/-- `get_source_counts()`: raise if not connected, empty mapping on a failing
query, otherwise per-source row counts sorted by count descending. -/
def get_source_counts (t : ArticleTracker) (s : Store) (queryFails : Bool) :
    OpResult (List (String × Nat)) :=
  if t.client.isNone then ⟨.error notConnectedMsg, s, 0⟩
  else if queryFails then ⟨.ok [], s, 1⟩
  else
    ⟨.ok (sortByCountDesc
      (s.records.foldl (fun acc r => bumpCount acc r.source_id) [])), s, 1⟩

/-- `clear_source(source_id)`: raise if not connected, 0 on failure, otherwise
count the source's rows, delete them, and return the pre-deletion count. -/
def clear_source (t : ArticleTracker) (s : Store) (queryFails : Bool)
    (source_id : String) : OpResult Nat :=
  if t.client.isNone then ⟨.error notConnectedMsg, s, 0⟩
  else if queryFails then ⟨.ok 0, s, 1⟩
  else
    let kept := s.records.filter (fun r => !(r.source_id == source_id))
    ⟨.ok (s.records.countP (fun r => r.source_id == source_id)),
      { s with records := kept }, 2⟩

/-- `clear_all()`: raise if not connected, 0 on failure, otherwise count all
rows, delete every row whose id is not 0 (the code's "delete all" predicate),
and return the pre-deletion count. -/
def clear_all (t : ArticleTracker) (s : Store) (queryFails : Bool) :
    OpResult Nat :=
  if t.client.isNone then ⟨.error notConnectedMsg, s, 0⟩
  else if queryFails then ⟨.ok 0, s, 1⟩
  else
    ⟨.ok s.records.length,
      { s with records := s.records.filter (fun r => r.id == 0) }, 2⟩

/-! ### Helper lemmas -/

theorem countP_ext {α : Type} (p q : α → Bool) (l : List α)
    (h : ∀ a ∈ l, p a = q a) : l.countP p = l.countP q := by
  induction l with
  | nil => rfl
  | cons a l ih =>
    rw [List.countP_cons, List.countP_cons, ih (fun x hx => h x (List.mem_cons_of_mem a hx)),
      h a (List.mem_cons_self a l)]

theorem hasPair_upsert_self (s : Store) (sid u now : String) :
    (s.upsert sid u now).hasPair sid u = true := by
  unfold Store.upsert Store.hasPair
  split
  · next hany =>
    rcases List.any_eq_true.mp hany with ⟨r, hr, hp⟩
    refine List.any_eq_true.mpr ⟨_, List.mem_map.mpr ⟨r, hr, rfl⟩, ?_⟩
    simp [hp]
  · refine List.any_eq_true.mpr ⟨⟨s.nextId, sid, u, now, now⟩, ?_, by simp⟩
    simp

theorem hasPair_upsert_mono (s : Store) (a b sid u now : String)
    (h : s.hasPair a b = true) : (s.upsert sid u now).hasPair a b = true := by
  unfold Store.upsert Store.hasPair
  unfold Store.hasPair at h
  rcases List.any_eq_true.mp h with ⟨r, hr, hp⟩
  split
  · refine List.any_eq_true.mpr ⟨_, List.mem_map.mpr ⟨r, hr, rfl⟩, ?_⟩
    by_cases hc : (r.source_id == sid && r.url == u) = true
    · simpa [hc] using hp
    · simpa [hc] using hp
  · exact List.any_eq_true.mpr ⟨r, by simp [hr], hp⟩

theorem markLoop_snd_hasPair_mono (f : Nat → Bool) (sid now a b : String)
    (urls : List String) :
    ∀ (idx : Nat) (s : Store), s.hasPair a b = true →
      ((markLoop s f sid urls now idx).2).hasPair a b = true := by
  induction urls with
  | nil => intro idx s h; simpa [markLoop] using h
  | cons u rest ih =>
    intro idx s h
    by_cases hf : f idx
    · simpa [markLoop, hf] using ih (idx + 1) s h
    · simpa [markLoop, hf] using
        ih (idx + 1) (s.upsert sid u now) (hasPair_upsert_mono s a b sid u now h)

theorem markLoop_snd_hasPair (f : Nat → Bool) (hf : ∀ i, f i = false)
    (sid now : String) (urls : List String) :
    ∀ (idx : Nat) (s : Store), ∀ u ∈ urls,
      ((markLoop s f sid urls now idx).2).hasPair sid u = true := by
  induction urls with
  | nil => intro idx s u hu; cases hu
  | cons v rest ih =>
    intro idx s u hu
    rcases List.mem_cons.mp hu with h | h
    · subst h
      simpa [markLoop, hf idx] using
        markLoop_snd_hasPair_mono f sid now sid u rest (idx + 1)
          (s.upsert sid u now) (hasPair_upsert_self s sid u now)
    · simpa [markLoop, hf idx] using ih (idx + 1) (s.upsert sid v now) u h

theorem markLoop_fst_count (f : Nat → Bool) (sid now : String)
    (urls : List String) :
    ∀ (idx : Nat) (s : Store),
      (markLoop s f sid urls now idx).1
        = (List.range urls.length).countP (fun i => !(f (idx + i))) := by
  induction urls with
  | nil => intro idx s; simp [markLoop]
  | cons u rest ih =>
    intro idx s
    have hshift : ∀ s' : Store,
        (markLoop s' f sid rest now (idx + 1)).1
          = (List.range rest.length).countP (fun i => !(f (idx + (i + 1)))) := by
      intro s'
      rw [ih (idx + 1) s']
      exact countP_ext _ _ _ (fun a _ => by rw [Nat.add_assoc, Nat.add_comm 1 a])
    have hrange : (List.range (u :: rest).length).countP (fun i => !(f (idx + i)))
        = (List.range rest.length).countP (fun i => !(f (idx + (i + 1))))
            + if !(f idx) then 1 else 0 := by
      rw [List.length_cons, List.range_succ_eq_map, List.countP_cons,
        List.countP_map]
      congr 1
    by_cases hf : f idx
    · simp only [markLoop, hf, if_true, hshift s, hrange, Bool.not_true,
        Bool.false_eq_true, if_false, Nat.add_zero]
    · simp only [markLoop, hf, Bool.false_eq_true, if_false, hshift, hrange,
        Bool.not_false, if_true]

theorem seen_contains_of_hasPair (s : Store) (sid u : String)
    (urls : List String) (hu : u ∈ urls) (h : s.hasPair sid u = true) :
    ((s.records.filter (fun r => r.source_id == sid && urls.contains r.url)).map
      (fun r => r.url)).contains u = true := by
  rcases List.any_eq_true.mp h with ⟨r, hr, hp⟩
  rcases Bool.and_eq_true_iff.mp hp with ⟨h1, h2⟩
  have hurl : r.url = u := by simpa using h2
  refine List.elem_iff.mpr (List.mem_map.mpr ⟨r, List.mem_filter.mpr ⟨hr, ?_⟩, hurl⟩)
  exact Bool.and_eq_true_iff.mpr ⟨h1, List.elem_iff.mpr (hurl ▸ hu)⟩

theorem filter_new_eq (t : ArticleTracker) (s : Store) (source_id : String)
    (urls : List String) (hc : t.client = some ()) (hm : t.testMode = false)
    (hne : urls ≠ []) :
    filter_new_articles t s false source_id urls
      = ⟨.ok (urls.filter (fun u =>
          !(((s.records.filter (fun r =>
              r.source_id == source_id && urls.contains r.url)).map
            (fun r => r.url)).contains u))), s, 1⟩ := by
  cases urls with
  | nil => exact absurd rfl hne
  | cons u rest => simp [filter_new_articles, hc, hm]

/-! ### Claims -/

/-- C1: with `test_mode` off and no remote failure, `mark_as_seen` followed
immediately by `filter_new_articles` on the resulting store, with the same
source and URL list, returns the empty list: every URL just marked is
filtered out. -/
theorem claim1_mark_then_filter_empty (t : ArticleTracker) (s : Store)
    (f : Nat → Bool) (source_id : String) (urls : List String) (now : String)
    (hc : t.client = some ()) (hm : t.testMode = false)
    (hf : ∀ i, f i = false) :
    (filter_new_articles t ((mark_as_seen t s f source_id urls now).store)
      false source_id urls).outcome = .ok [] := by
  cases urls with
  | nil => simp [filter_new_articles, hc]
  | cons u rest =>
    have hstore : (mark_as_seen t s f source_id (u :: rest) now).store
        = (markLoop s f source_id (u :: rest) now 0).2 := by
      simp [mark_as_seen, hc]
    rw [hstore, filter_new_eq t _ source_id (u :: rest) hc hm
      (List.cons_ne_nil u rest)]
    have hnil : (u :: rest).filter (fun x =>
        !((((markLoop s f source_id (u :: rest) now 0).2).records.filter
            (fun r => r.source_id == source_id && (u :: rest).contains r.url)).map
          (fun r => r.url)).contains x) = [] := by
      refine List.filter_eq_nil_iff.mpr (fun x hx => ?_)
      rw [seen_contains_of_hasPair _ source_id x (u :: rest) hx
        (markLoop_snd_hasPair f hf source_id now (u :: rest) 0 s x hx)]
      simp
    rw [hnil]

/-- C1 witness at a concrete input. -/
theorem claim1_witness :
    (filter_new_articles ⟨some (), false⟩
      ((mark_as_seen ⟨some (), false⟩ Store.empty (fun _ => false) "siteA"
        ["u1", "u2"] "t1").store) false "siteA" ["u1", "u2"]).outcome
      = .ok [] :=
  claim1_mark_then_filter_empty ⟨some (), false⟩ Store.empty (fun _ => false)
    "siteA" ["u1", "u2"] "t1" rfl rfl (fun _ => rfl)

/-- C2: whatever `filter_new_articles` returns is a subsequence of its input
(returned URLs occur in the input, in the same relative order), and on an
empty input it returns the empty list without issuing any remote query and
without touching the store. -/
theorem claim2_filter_subsequence (t : ArticleTracker) (s : Store) (qf : Bool)
    (source_id : String) (urls l : List String)
    (h : (filter_new_articles t s qf source_id urls).outcome = .ok l) :
    l.Sublist urls ∧ (urls = [] → l = []
      ∧ (filter_new_articles t s qf source_id urls).calls = 0
      ∧ (filter_new_articles t s qf source_id urls).store = s) := by
  by_cases h1 : t.client.isNone
  · simp [filter_new_articles, h1] at h
  · cases urls with
    | nil =>
      simp [filter_new_articles, h1] at h
      subst h
      exact ⟨List.Sublist.refl [], fun _ =>
        ⟨rfl, by simp [filter_new_articles, h1], by simp [filter_new_articles, h1]⟩⟩
    | cons u rest =>
      refine ⟨?_, fun heq => absurd heq (List.cons_ne_nil u rest)⟩
      by_cases h3 : t.testMode
      · simp [filter_new_articles, h1, h3] at h
        subst h
        exact List.Sublist.refl _
      · by_cases h4 : qf
        · simp [filter_new_articles, h1, h3, h4] at h
          subst h
          exact List.Sublist.refl _
        · simp [filter_new_articles, h1, h3, h4] at h
          subst h
          exact List.filter_sublist _

/-- C2 witness at a concrete input. -/
theorem claim2_witness :
    List.Sublist ["b"] ["a", "b"] :=
  (claim2_filter_subsequence ⟨some (), false⟩
    ⟨[⟨1, "siteA", "a", "t0", "t0"⟩], 2⟩ false "siteA" ["a", "b"] ["b"] rfl).1

/-- C4: when the remote query of `filter_new_articles` fails on a connected
tracker with `test_mode` off and a non-empty input, the exception is caught
and the full input list is returned (fail-open). -/
theorem claim4_fail_open (t : ArticleTracker) (s : Store) (source_id : String)
    (urls : List String) (hc : t.client = some ()) (hm : t.testMode = false)
    (hne : urls ≠ []) :
    (filter_new_articles t s true source_id urls).outcome = .ok urls := by
  cases urls with
  | nil => exact absurd rfl hne
  | cons u rest => simp [filter_new_articles, hc, hm]

/-- C4 witness at a concrete input. -/
theorem claim4_witness :
    (filter_new_articles ⟨some (), false⟩ Store.empty true "siteA"
      ["x", "y"]).outcome = .ok ["x", "y"] :=
  claim4_fail_open ⟨some (), false⟩ Store.empty "siteA" ["x", "y"] rfl rfl
    (by decide)

/-- C7: with `test_mode` on and the tracker connected, `filter_new_articles`
returns exactly its input for every store, failure pattern and URL list, and
`is_seen` returns `false` for every pair. -/
theorem claim7_test_mode_reads (t : ArticleTracker) (s : Store) (qf : Bool)
    (source_id : String) (urls : List String) (u : String)
    (hc : t.client = some ()) (hm : t.testMode = true) :
    (filter_new_articles t s qf source_id urls).outcome = .ok urls
    ∧ (is_seen t s qf source_id u).outcome = .ok false := by
  constructor
  · cases urls with
    | nil => simp [filter_new_articles, hc]
    | cons v rest => simp [filter_new_articles, hc, hm]
  · simp [is_seen, hc, hm]

/-- C7 witness at a concrete input. -/
theorem claim7_witness :
    (filter_new_articles ⟨some (), true⟩
      ⟨[⟨1, "siteA", "a", "t0", "t0"⟩], 2⟩ false "siteA" ["a"]).outcome
        = .ok ["a"]
    ∧ (is_seen ⟨some (), true⟩ ⟨[⟨1, "siteA", "a", "t0", "t0"⟩], 2⟩ false
        "siteA" "a").outcome = .ok false :=
  claim7_test_mode_reads ⟨some (), true⟩ ⟨[⟨1, "siteA", "a", "t0", "t0"⟩], 2⟩
    false "siteA" ["a"] "a" rfl rfl

/-- C8: before a successful connect (no client handle), every public
operation other than connect/close raises the not-connected error, leaves the
store untouched and issues no remote call. -/
theorem claim8_not_connected (t : ArticleTracker) (s : Store) (qf : Bool)
    (f : Nat → Bool) (source_id u now : String) (urls : List String)
    (osid : Option String) (hc : t.client = none) :
    filter_new_articles t s qf source_id urls = ⟨.error notConnectedMsg, s, 0⟩
    ∧ mark_as_seen t s f source_id urls now = ⟨.error notConnectedMsg, s, 0⟩
    ∧ is_seen t s qf source_id u = ⟨.error notConnectedMsg, s, 0⟩
    ∧ get_stats t s qf osid = ⟨.error notConnectedMsg, s, 0⟩
    ∧ get_source_counts t s qf = ⟨.error notConnectedMsg, s, 0⟩
    ∧ clear_source t s qf source_id = ⟨.error notConnectedMsg, s, 0⟩
    ∧ clear_all t s qf = ⟨.error notConnectedMsg, s, 0⟩ := by
  refine ⟨?_, ?_, ?_, ?_, ?_, ?_, ?_⟩ <;>
    simp [filter_new_articles, mark_as_seen, is_seen, get_stats,
      get_source_counts, clear_source, clear_all, hc]

/-- C8 witness at a concrete input. -/
theorem claim8_witness :
    filter_new_articles ⟨none, false⟩ Store.empty false "siteA" ["a"]
      = ⟨.error notConnectedMsg, Store.empty, 0⟩ :=
  (claim8_not_connected ⟨none, false⟩ Store.empty false (fun _ => false)
    "siteA" "u" "t0" ["a"] none rfl).1

theorem map_id_of_mem {α : Type} (f : α → α) (l : List α)
    (h : ∀ a ∈ l, f a = a) : l.map f = l := by
  conv_rhs => rw [show l = l.map id from (List.map_id l).symm]
  exact List.map_congr_left h

/-- C5: on a connected tracker, `mark_as_seen` never raises on per-item
failures: it returns the count of successfully upserted URLs, which is 0 when
the input is empty or every upsert fails. -/
theorem claim5_mark_error_handling (t : ArticleTracker) (s : Store)
    (f : Nat → Bool) (source_id : String) (urls : List String) (now : String)
    (hc : t.client = some ()) :
    (mark_as_seen t s f source_id urls now).outcome
      = .ok ((List.range urls.length).countP (fun i => !(f i)))
    ∧ ((urls = [] ∨ ∀ i < urls.length, f i = true) →
        (mark_as_seen t s f source_id urls now).outcome = .ok 0) := by
  have hmain : (mark_as_seen t s f source_id urls now).outcome
      = .ok ((List.range urls.length).countP (fun i => !(f i))) := by
    cases urls with
    | nil => simp [mark_as_seen, hc]
    | cons u rest =>
      rw [show (mark_as_seen t s f source_id (u :: rest) now).outcome
          = .ok ((markLoop s f source_id (u :: rest) now 0).1) from by
        simp [mark_as_seen, hc]]
      rw [markLoop_fst_count f source_id now (u :: rest) 0 s]
      congr 1
      exact countP_ext _ _ _ (fun a _ => by rw [Nat.zero_add])
  refine ⟨hmain, fun h => ?_⟩
  rcases h with h | h
  · subst h
    simpa using hmain
  · rw [hmain, List.countP_eq_zero.mpr (fun a ha => by
      simp [h a (List.mem_range.mp ha)])]

/-- C5 witness at a concrete input: every upsert fails, the call returns 0. -/
theorem claim5_witness :
    (mark_as_seen ⟨some (), false⟩ Store.empty (fun _ => true) "siteA"
      ["x", "y"] "t0").outcome = .ok 0 :=
  (claim5_mark_error_handling ⟨some (), false⟩ Store.empty (fun _ => true)
    "siteA" ["x", "y"] "t0" rfl).2 (Or.inr (fun _ _ => rfl))

/-- C10: when every per-URL upsert succeeds, `mark_as_seen` returns the
length of its input list, counting duplicate occurrences of the same URL
individually. -/
theorem claim10_duplicates_counted (t : ArticleTracker) (s : Store)
    (f : Nat → Bool) (source_id : String) (urls : List String) (now : String)
    (hc : t.client = some ()) (hok : ∀ i, i < urls.length → f i = false) :
    (mark_as_seen t s f source_id urls now).outcome = .ok urls.length := by
  cases urls with
  | nil => simp [mark_as_seen, hc]
  | cons u rest =>
    rw [show (mark_as_seen t s f source_id (u :: rest) now).outcome
        = .ok ((markLoop s f source_id (u :: rest) now 0).1) from by
      simp [mark_as_seen, hc]]
    rw [markLoop_fst_count f source_id now (u :: rest) 0 s]
    congr 1
    rw [List.countP_eq_length.mpr (fun a ha => by
      simp [Nat.zero_add, hok a (List.mem_range.mp ha)]), List.length_range]

/-- C10 witness: a duplicated URL is counted twice while only one record is
created. -/
theorem claim10_witness :
    (mark_as_seen ⟨some (), false⟩ Store.empty (fun _ => false) "siteA"
      ["a", "a"] "t0").outcome = .ok 2
    ∧ (mark_as_seen ⟨some (), false⟩ Store.empty (fun _ => false) "siteA"
      ["a", "a"] "t0").store.records.length = 1 :=
  ⟨claim10_duplicates_counted ⟨some (), false⟩ Store.empty (fun _ => false)
    "siteA" ["a", "a"] "t0" rfl (fun _ _ => rfl), rfl⟩

/-- C3 counterexample: with `test_mode` on, `mark_as_seen` on a connected
tracker still mutates the store — marking one URL on the empty store inserts
a record, so the store is not identical before and after the call. -/
theorem claim3_counterexample :
    (mark_as_seen ⟨some (), true⟩ Store.empty (fun _ => false) "siteA" ["u1"]
      "t1").store ≠ Store.empty := by decide

/-- C3 amended: `mark_as_seen` ignores the test-mode flag entirely — its
result, store mutation and remote calls are identical whether `test_mode` is
on or off (test mode affects only the read operations). -/
theorem claim3_amended_mark_ignores_test_mode (c : Option Unit) (s : Store)
    (f : Nat → Bool) (source_id : String) (urls : List String) (now : String) :
    mark_as_seen ⟨c, true⟩ s f source_id urls now
      = mark_as_seen ⟨c, false⟩ s f source_id urls now := rfl

/-- C9: on a connected tracker whose store rows all carry a nonzero id (as
the database assigns them), a successful `clear_all` returns the pre-deletion
row count, leaves no records, and a subsequent `get_stats` reports a total of
0. -/
theorem claim9_clear_all_empties (t : ArticleTracker) (s : Store)
    (hc : t.client = some ()) (hid : ∀ r ∈ s.records, r.id ≠ 0) :
    (clear_all t s false).outcome = .ok s.records.length
    ∧ (clear_all t s false).store.records = []
    ∧ (get_stats t (clear_all t s false).store false none).outcome
        = .ok ⟨0, none, none⟩ := by
  have hnil : s.records.filter (fun r => r.id == 0) = [] :=
    List.filter_eq_nil_iff.mpr (fun r hr => by simp [hid r hr])
  have hstore : (clear_all t s false).store = ⟨[], s.nextId⟩ := by
    simp [clear_all, hc, hnil]
  refine ⟨by simp [clear_all, hc], by rw [hstore], ?_⟩
  rw [hstore]
  simp [get_stats, hc, oldestFirstSeen, newestFirstSeen]

/-- C9 witness at a concrete one-row store. -/
theorem claim9_witness :
    (clear_all ⟨some (), false⟩ ⟨[⟨1, "siteA", "a", "t0", "t0"⟩], 2⟩
      false).outcome = .ok 1
    ∧ (clear_all ⟨some (), false⟩ ⟨[⟨1, "siteA", "a", "t0", "t0"⟩], 2⟩
      false).store.records = [] :=
  ⟨(claim9_clear_all_empties ⟨some (), false⟩
      ⟨[⟨1, "siteA", "a", "t0", "t0"⟩], 2⟩ rfl (by decide)).1,
    (claim9_clear_all_empties ⟨some (), false⟩
      ⟨[⟨1, "siteA", "a", "t0", "t0"⟩], 2⟩ rfl (by decide)).2.1⟩

theorem upsert_absent (s : Store) (sid u now : String)
    (h : s.records.any (fun r => r.source_id == sid && r.url == u) = false) :
    s.upsert sid u now
      = ⟨s.records ++ [⟨s.nextId, sid, u, now, now⟩], s.nextId + 1⟩ := by
  simp [Store.upsert, h]

theorem upsert_present_fresh (s : Store) (sid u t1 t2 : String) (i j : Nat)
    (h : ∀ r ∈ s.records, ¬ ((r.source_id == sid && r.url == u) = true)) :
    Store.upsert ⟨s.records ++ [⟨i, sid, u, t1, t1⟩], j⟩ sid u t2
      = ⟨s.records ++ [⟨i, sid, u, t1, t2⟩], j⟩ := by
  have hany : (s.records ++ [(⟨i, sid, u, t1, t1⟩ : Record)]).any
      (fun r => r.source_id == sid && r.url == u) = true := by simp
  simp only [Store.upsert, hany, if_true]
  congr 1
  rw [List.map_append]
  congr 1
  · exact map_id_of_mem _ _ (fun r hr => by simp [eq_false_intro (h r hr)])
  · simp

/-- C6: marking the same fresh (source_id, url) pair twice (no failures,
connected) leaves exactly one record for the pair: the source's record count
rises by exactly 1 over the two calls, the record keeps the `first_seen` set
by the first call, and its `last_checked` is the second call's timestamp. -/
theorem claim6_mark_twice_one_record (t : ArticleTracker) (s : Store)
    (f : Nat → Bool) (source_id u t1 t2 : String)
    (hc : t.client = some ()) (hf : ∀ i, f i = false)
    (habs : s.hasPair source_id u = false) :
    (∃ i, ((mark_as_seen t ((mark_as_seen t s f source_id [u] t1).store)
        f source_id [u] t2).store).records.filter
          (fun r => r.source_id == source_id && r.url == u)
        = [⟨i, source_id, u, t1, t2⟩])
    ∧ ((mark_as_seen t ((mark_as_seen t s f source_id [u] t1).store)
        f source_id [u] t2).store).records.countP
          (fun r => r.source_id == source_id)
      = s.records.countP (fun r => r.source_id == source_id) + 1 := by
  have habs' : s.records.any
      (fun r => r.source_id == source_id && r.url == u) = false := habs
  have hp_all : ∀ r ∈ s.records,
      ¬ ((r.source_id == source_id && r.url == u) = true) :=
    List.any_eq_false.mp habs'
  have hmark : ∀ (st : Store) (tm : String),
      (mark_as_seen t st f source_id [u] tm).store
        = st.upsert source_id u tm := by
    intro st tm
    simp [mark_as_seen, hc, markLoop, hf 0]
  rw [hmark, hmark, upsert_absent s source_id u t1 habs',
    upsert_present_fresh s source_id u t1 t2 s.nextId (s.nextId + 1) hp_all]
  constructor
  · refine ⟨s.nextId, ?_⟩
    rw [List.filter_append, List.filter_eq_nil_iff.mpr hp_all]
    simp
  · rw [List.countP_append]
    simp [List.countP_cons]

/-- C6 witness at a concrete input: two marks of the same pair on the empty
store leave one record with `first_seen` from the first call and
`last_checked` from the second. -/
theorem claim6_witness :
    ∃ i, ((mark_as_seen ⟨some (), false⟩
        ((mark_as_seen ⟨some (), false⟩ Store.empty (fun _ => false) "siteA"
          ["a"] "t1").store)
        (fun _ => false) "siteA" ["a"] "t2").store).records.filter
          (fun r => r.source_id == "siteA" && r.url == "a")
        = [⟨i, "siteA", "a", "t1", "t2"⟩] :=
  (claim6_mark_twice_one_record ⟨some (), false⟩ Store.empty (fun _ => false)
    "siteA" "a" "t1" "t2" rfl (fun _ => rfl) rfl).1

end Adu
